import Mathlib

/-!
# Verification of the voice-bot session orchestrator and context retrieval service

Shallow embedding of the core logic of the voice-bot repository:

* the retry/reconnect controller of `src/components/VoiceChat.jsx`
  (`scheduleRetry` and the `connect` catch path),
* the greeting guard (`sendGreeting` in `VoiceChat.jsx`),
* the assistant transcript accumulator (`onResponseTranscript` in
  `VoiceChat.jsx`),
* the RAG-context route with its similarity gate
  (`SIMILARITY_THRESHOLD` in the rag-context API route) together with the
  client-side injection decision in `fetchAndSendContext`,
* the prewarm cache lookup in `fetchAndSendContext` / `prewarmContext`,
* the `disconnect` state reset,
* the retrieval pipeline `retrieveChunks` / `retrieveChunksFromQdrant`
  (`src/lib/rag/retrieve.js`, `src/lib/rag/qdrant-retrieve.js`),
* the embedding padding `padEmbeddingTo1536`
  (`lib/clients/localEmbedding.js`).

External effects (network requests, the Qdrant search, the embedding model)
are modelled by explicit environments recording the outcome of each call;
floating-point arithmetic on embedding vectors is modelled over `ℝ`,
similarity scores over `ℚ`.
-/

namespace VoiceBot

/-! ## JavaScript string primitives

`jsTrim` models `String.prototype.trim` (strip leading and trailing
whitespace) and `jsSlice0` models `String.prototype.slice(0, n)`.  Both are
defined structurally over the character list so that concrete instances
evaluate inside the kernel. -/

/-- Model of `String.prototype.trim`: remove leading and trailing whitespace. -/
def jsTrim (s : String) : String :=
  ⟨((s.data.dropWhile Char.isWhitespace).reverse.dropWhile
      Char.isWhitespace).reverse⟩

/-- Model of `String.prototype.slice(0, n)`: the first `n` characters. -/
def jsSlice0 (s : String) (n : Nat) : String := ⟨s.data.take n⟩

/-! ## Retry/reconnect controller (`VoiceChat.jsx`)

`maxRetries = 5`, `baseRetryDelay = 2000` are the constants at the top of the
component.  `scheduleRetry` is the connection-health path: it reads the current
retry counter, refuses to schedule once the counter has reached the ceiling
(surfacing a terminal error via `setError`), and otherwise schedules a retry
after `baseRetryDelay * 2 ^ retryCount` ms, bumping the counter.  The `connect`
catch path increments the counter first and uses
`baseRetryDelay * 2 ^ (retryCount - 1)`; on exhaustion it resets the counter to
zero and schedules nothing. -/

def maxRetries : Nat := 5

def baseRetryDelay : Nat := 2000

/-- Decision produced by a retry path: either schedule attempt `attempt` after
`delay` milliseconds, or surface a terminal error and schedule nothing. -/
inductive RetryDecision where
  | schedule (delay : Nat) (attempt : Nat)
  | terminalError
  deriving DecidableEq, Repr

/-- Function `scheduleRetry` from `setupConnectionStateMonitoring`:
`if (retryCountRef.current >= maxRetries) { setError(...); return; }`
then `delay = baseRetryDelay * Math.pow(2, retryCountRef.current)` and
`retryCountRef.current = retryCountRef.current + 1`. -/
def scheduleRetry (retryCount : Nat) : RetryDecision :=
  if maxRetries ≤ retryCount then .terminalError
  else .schedule (baseRetryDelay * 2 ^ retryCount) (retryCount + 1)

/-- The retry logic of the `connect` catch block:
`if (retryCountRef.current < maxRetries) { retryCountRef.current += 1;
delay = baseRetryDelay * Math.pow(2, retryCountRef.current - 1); ... }
else { retryCountRef.current = 0; }`.  Returns the decision together with the
new value of the retry counter. -/
def connectCatchRetry (retryCount : Nat) : RetryDecision × Nat :=
  if retryCount < maxRetries then
    (.schedule (baseRetryDelay * 2 ^ ((retryCount + 1) - 1)) (retryCount + 1),
      retryCount + 1)
  else (.terminalError, 0)

/-! ## Greeting guard (`sendGreeting` in `VoiceChat.jsx`)

`sendGreeting` fires the greeting trigger only when `!hasGreetedRef.current`,
the data channel is open, and `enableAudio` holds; it sets the flag before
sending, so the trigger goes out at most once per component lifetime (the flag
is never reset, not even by `disconnect`). -/

structure GreetState where
  hasGreeted : Bool
  sentCount : Nat
  deriving DecidableEq, Repr

/-- One invocation of `sendGreeting` with the data channel open:
`if (!hasGreetedRef.current && dataChannelRef.current &&
dataChannelRef.current.readyState === "open" && enableAudio)` then set the flag
and send the greeting trigger. -/
def sendGreeting (channelOpen enableAudio : Bool) (s : GreetState) : GreetState :=
  if ¬ s.hasGreeted ∧ channelOpen ∧ enableAudio then
    { hasGreeted := true, sentCount := s.sentCount + 1 }
  else s

/-- Run of `n` successive control-channel "open" events within one session lifetime,
each re-running `sendGreeting` with the channel open and audio enabled. -/
def runOpens : Nat → GreetState → GreetState
  | 0, s => s
  | n + 1, s => runOpens n (sendGreeting true true s)

/-- Initial state of a freshly mounted session: `hasGreetedRef = false`,
nothing sent. -/
def initGreetState : GreetState := { hasGreeted := false, sentCount := 0 }

/-! ## Assistant transcript accumulator (`onResponseTranscript`)

An inbound assistant-reply event either carries a partial delta
(`event.delta` / `event.part.delta`) or a full transcript.  The handler trims
the extracted text, ignores empty text, appends deltas, and replaces the
accumulated text by a full transcript only when the result is different from
and strictly longer than the current accumulated text. -/

inductive RespEvent where
  | delta (text : String)
  | full (text : String)
  deriving DecidableEq, Repr

def RespEvent.text : RespEvent → String
  | .delta t => t
  | .full t => t

/-- Handler `onResponseTranscript` from `VoiceChat.jsx`: trim the extracted text, skip
empty text, compute `newText` (append for deltas, replace for full
transcripts) and apply it only `if (newText !== currentText &&
newText.length > currentText.length)`. -/
def onResponseTranscript (current : String) (e : RespEvent) : String :=
  let trimmedText := jsTrim e.text
  if trimmedText = "" then current
  else
    let newText :=
      match e with
      | .delta _ => current ++ trimmedText
      | .full _ => trimmedText
    if newText ≠ current ∧ current.length < newText.length then newText
    else current

/-- The accumulated assistant text after handling a sequence of reply events. -/
def runTranscript (init : String) (events : List RespEvent) : String :=
  events.foldl onResponseTranscript init

theorem onResponseTranscript_length_mono (current : String) (e : RespEvent) :
    current.length ≤ (onResponseTranscript current e).length := by
  unfold onResponseTranscript
  dsimp only
  split
  · exact le_refl _
  · split
    · next h => exact le_of_lt h.2
    · exact le_refl _

theorem runTranscript_length_mono (init : String) (events : List RespEvent) :
    init.length ≤ (runTranscript init events).length := by
  induction events generalizing init with
  | nil => exact le_refl _
  | cons e es ih =>
      exact le_trans (onResponseTranscript_length_mono init e) (ih _)

/-! ## Claim theorems: retry, greeting, transcript -/

/-- C4: on both retry paths, the delay scheduled before attempt `k`
(`k = 1..5`) is `baseRetryDelay * 2 ^ (k - 1) = 2000 * 2 ^ (k - 1)` ms, and no
retry is scheduled once the retry counter has reached the ceiling of
`maxRetries = 5` attempts: the decision is a terminal error instead. -/
theorem retry_backoff_exponential_and_capped :
    (∀ k : Nat, 1 ≤ k → k ≤ maxRetries →
      scheduleRetry (k - 1) = .schedule (2000 * 2 ^ (k - 1)) k) ∧
    (∀ r : Nat, maxRetries ≤ r → scheduleRetry r = .terminalError) ∧
    (∀ k : Nat, 1 ≤ k → k ≤ maxRetries →
      connectCatchRetry (k - 1) = (.schedule (2000 * 2 ^ (k - 1)) k, k)) ∧
    (∀ r : Nat, maxRetries ≤ r → connectCatchRetry r = (.terminalError, 0)) := by
  refine ⟨?_, ?_, ?_, ?_⟩
  · intro k hk1 hk5
    unfold scheduleRetry
    rw [if_neg (by omega)]
    have hk : k - 1 + 1 = k := by omega
    rw [hk]
    rfl
  · intro r hr
    unfold scheduleRetry
    rw [if_pos hr]
  · intro k hk1 hk5
    unfold connectCatchRetry
    rw [if_pos (by omega)]
    have hk : k - 1 + 1 = k := by omega
    rw [hk]
    rfl
  · intro r hr
    unfold connectCatchRetry
    rw [if_neg (by omega)]

/-- C4 witness: attempt 3 is scheduled after `2000 * 2 ^ 2 = 8000` ms, and a
counter at the ceiling schedules nothing. -/
theorem retry_backoff_exponential_and_capped_witness :
    scheduleRetry 2 = .schedule 8000 3 ∧ scheduleRetry 5 = .terminalError ∧
      connectCatchRetry 2 = (.schedule 8000 3, 3) := by
  refine ⟨?_, ?_, ?_⟩
  · have h := retry_backoff_exponential_and_capped.1 3 (by decide) (by decide)
    simpa using h
  · exact retry_backoff_exponential_and_capped.2.1 5 (by decide)
  · have h := retry_backoff_exponential_and_capped.2.2.1 3 (by decide) (by decide)
    simpa using h

/-- C6: within one session lifetime, across any number `n` of control-channel
open events (including re-deliveries after reconnects), the greeting trigger is
sent `min n 1` times: never more than once, and exactly once as soon as at
least one open event is delivered.  The greeting-sent flag records whether it
fired. -/
theorem greeting_sent_exactly_once :
    ∀ n : Nat, (runOpens n initGreetState).sentCount = min n 1 ∧
      (runOpens n initGreetState).hasGreeted = decide (1 ≤ n) := by
  have hstuck : ∀ (n : Nat) (s : GreetState), s.hasGreeted = true →
      runOpens n s = s := by
    intro n
    induction n with
    | zero => intro s _; rfl
    | succ m ih =>
        intro s hs
        show runOpens m (sendGreeting true true s) = s
        have hsend : sendGreeting true true s = s := by
          unfold sendGreeting
          rw [if_neg (by simp [hs])]
        rw [hsend]
        exact ih s hs
  intro n
  cases n with
  | zero => exact ⟨rfl, rfl⟩
  | succ m =>
      have hfire : sendGreeting true true initGreetState =
          { hasGreeted := true, sentCount := 1 } := by
        unfold sendGreeting initGreetState
        rw [if_pos (by simp)]

      have : runOpens (m + 1) initGreetState =
          { hasGreeted := true, sentCount := 1 } := by
        show runOpens m (sendGreeting true true initGreetState) = _
        rw [hfire]
        exact hstuck m _ rfl
      rw [this]
      constructor
      · simp [Nat.min_def]
      · simp

/-- C5 counterexample: the claim "after the reply's completion event the
accumulated text equals the final event's full text" fails as stated: after
the delta `"hello world"` followed by the full transcript `"hi"`, the
accumulated text is still `"hello world"`, not the final event's full text
`"hi"` (the handler keeps the longer accumulated text). -/
theorem transcript_final_text_counterexample :
    runTranscript "" [.delta "hello world", .full "hi"] = "hello world" ∧
      runTranscript "" [.delta "hello world", .full "hi"] ≠ "hi" := by
  constructor
  · decide
  · decide

/-- C5 (amended): the accumulated assistant text is non-decreasing in length —
a new value replaces the current one only if it is strictly longer — and a
full-transcript event whose trimmed text is strictly longer than the
accumulated text replaces it exactly; equality with the final event's full
text therefore holds whenever that final text is at least as long as
everything accumulated before it, but not for arbitrary interleavings. -/
theorem transcript_monotone_and_final :
    (∀ (init : String) (events : List RespEvent),
      init.length ≤ (runTranscript init events).length) ∧
    (∀ (current : String) (e : RespEvent),
      onResponseTranscript current e ≠ current →
      current.length < (onResponseTranscript current e).length) ∧
    (∀ (current t : String), current.length < (jsTrim t).length →
      onResponseTranscript current (.full t) = jsTrim t) := by
  have hcases : ∀ (current : String) (e : RespEvent),
      onResponseTranscript current e = current ∨
        current.length < (onResponseTranscript current e).length := by
    intro current e
    unfold onResponseTranscript
    dsimp only
    split
    · exact Or.inl rfl
    · split
      · next h => exact Or.inr h.2
      · exact Or.inl rfl
  refine ⟨runTranscript_length_mono, ?_, ?_⟩
  · intro current e hne
    rcases hcases current e with h | h
    · exact absurd h hne
    · exact h
  · intro current t hlt
    unfold onResponseTranscript
    dsimp only [RespEvent.text]
    have htrim : ¬ (jsTrim t = "") := by
      intro h
      rw [h] at hlt
      simp at hlt
    rw [if_neg htrim]
    have hne : jsTrim t ≠ current := by
      intro h
      rw [h] at hlt
      exact lt_irrefl _ hlt
    rw [if_pos ⟨hne, hlt⟩]

/-- C5 witness: a delta never shrinks the accumulated text, and the full
transcript `"hello"` replaces the shorter accumulated text `"a"`. -/
theorem transcript_monotone_and_final_witness :
    ("a" : String).length ≤ (runTranscript "a" [.delta " longer"]).length ∧
      onResponseTranscript "a" (.full "hello") = jsTrim "hello" := by
  constructor
  · exact transcript_monotone_and_final.1 "a" [.delta " longer"]
  · exact transcript_monotone_and_final.2.2 "a" "hello" (by decide)

/-! ## Context retrieval response and the relevance gate

The RAG-context API route retrieves chunks, reads the top result's similarity
(`chunks[0]?.similarity || 0`), and returns `{context: null, chunksFound: 0}`
when it is below `SIMILARITY_THRESHOLD = 0.25`; otherwise it returns the
rendered context block and the chunk count.  The client
(`fetchAndSendContext`) injects a `conversation.item.create` message exactly
when `data.chunksFound > 0 && data.context`. -/

/-- JavaScript `x || d` on an optional string: the default replaces both
`null`/`undefined` and the empty string. -/
def orTruthy (o : Option String) (d : String) : String :=
  match o with
  | some s => if s = "" then d else s
  | none => d

/-- A retrieved context chunk as returned by `retrieveChunks`. -/
structure Chunk where
  content : String
  category : Option String
  file_name : Option String
  similarity : ℚ
  deriving DecidableEq, Repr

/-- Model of `Array.prototype.join(sep)`. -/
def joinSep (sep : String) : List String → String
  | [] => ""
  | [x] => x
  | x :: y :: xs => x ++ sep ++ joinSep sep (y :: xs)

/-- One rendered chunk of `buildContextBlock`:
`` `Source ${index + 1} (${category} • ${fileName}):\n${content.trim()}` ``
with `category || 'General'` and `file_name || 'Unknown'`. -/
def renderChunk (index : Nat) (c : Chunk) : String :=
  "Source " ++ toString (index + 1) ++ " (" ++ orTruthy c.category "General"
    ++ " • " ++ orTruthy c.file_name "Unknown" ++ "):\n" ++ jsTrim c.content

/-- Function `buildContextBlock` from the RAG-context route. -/
def buildContextBlock (chunks : List Chunk) : String :=
  match chunks with
  | [] => "No matching knowledge base context was found."
  | _ :: _ => joinSep "\n\n" (chunks.mapIdx renderChunk)

/-- The constant `SIMILARITY_THRESHOLD = 0.25`. -/
def SIMILARITY_THRESHOLD : ℚ := 1 / 4

/-- The JSON body returned by the RAG-context route (and cached by the
prewarm path): `{context, chunksFound}`. -/
structure RagData where
  context : Option String
  chunksFound : Nat
  deriving DecidableEq, Repr

/-- The expression `chunks[0]?.similarity || 0`. -/
def topSimilarity (chunks : List Chunk) : ℚ :=
  match chunks with
  | [] => 0
  | c :: _ => c.similarity

/-- The response of the RAG-context route as a function of the retrieval
result: for a non-empty result list, apply the similarity gate; otherwise
report no context. -/
def ragContextResponse (chunks : List Chunk) : RagData :=
  match chunks with
  | [] => { context := none, chunksFound := 0 }
  | _ :: _ =>
    if topSimilarity chunks < SIMILARITY_THRESHOLD then
      { context := none, chunksFound := 0 }
    else
      { context := some (buildContextBlock chunks),
        chunksFound := chunks.length }

/-- JavaScript truthiness of `data.context`. -/
def isTruthyStr : Option String → Bool
  | some s => s ≠ ""
  | none => false

/-- The client-side injection decision in `fetchAndSendContext`:
`if (data.chunksFound > 0 && data.context)` a conversation-item message
carrying the context is sent over the data channel. -/
def contextInjected (chunks : List Chunk) : Bool :=
  let d := ragContextResponse chunks
  decide (0 < d.chunksFound) && isTruthyStr d.context

theorem joinSep_length_ge_head (sep : String) (x : String) (xs : List String) :
    x.length ≤ (joinSep sep (x :: xs)).length := by
  cases xs with
  | nil => exact le_refl _
  | cons y ys =>
      show x.length ≤ (x ++ sep ++ joinSep sep (y :: ys)).length
      rw [String.length_append, String.length_append]
      omega

theorem renderChunk_length_pos (index : Nat) (c : Chunk) :
    0 < (renderChunk index c).length := by
  unfold renderChunk
  repeat rw [String.length_append]
  have : 0 < ("Source " : String).length := by decide
  omega

theorem buildContextBlock_ne_empty (chunks : List Chunk) :
    buildContextBlock chunks ≠ "" := by
  match chunks with
  | [] => decide
  | c :: rest =>
      show joinSep "\n\n" ((c :: rest).mapIdx renderChunk) ≠ ""
      rw [List.mapIdx_cons]
      intro h
      have h1 := joinSep_length_ge_head "\n\n" (renderChunk 0 c)
        (rest.mapIdx fun i => renderChunk (i + 1))
      have h2 := renderChunk_length_pos 0 c
      rw [h] at h1
      simp at h1
      omega

/-- C1: for every non-empty retrieval result list, the RAG-context path
injects context if and only if the top result's similarity is at least the
fixed threshold `SIMILARITY_THRESHOLD = 0.25`; below the threshold the route
returns a null context with `chunksFound = 0`, so the client sends no
conversation-item message. -/
theorem relevance_gate_iff_threshold (chunks : List Chunk)
    (hne : chunks ≠ []) :
    (contextInjected chunks = true ↔
      SIMILARITY_THRESHOLD ≤ topSimilarity chunks) ∧
    (topSimilarity chunks < SIMILARITY_THRESHOLD →
      ragContextResponse chunks = { context := none, chunksFound := 0 }) := by
  match chunks with
  | [] => exact absurd rfl hne
  | c :: rest =>
      rcases lt_or_ge (topSimilarity (c :: rest)) SIMILARITY_THRESHOLD with hlt | hge
      · have hresp : ragContextResponse (c :: rest) =
            { context := none, chunksFound := 0 } := by
          unfold ragContextResponse
          rw [if_pos hlt]
        constructor
        · constructor
          · intro hinj
            exfalso
            unfold contextInjected at hinj
            rw [hresp] at hinj
            simp [isTruthyStr] at hinj
          · intro hge'
            exact absurd hlt (not_lt.mpr hge')
        · intro _
          exact hresp
      · have hresp : ragContextResponse (c :: rest) =
            { context := some (buildContextBlock (c :: rest)),
              chunksFound := (c :: rest).length } := by
          unfold ragContextResponse
          rw [if_neg (not_lt.mpr hge)]
        constructor
        · constructor
          · intro _
            exact hge
          · intro _
            unfold contextInjected
            rw [hresp]
            simp only [isTruthyStr, List.length_cons, Bool.and_eq_true,
              decide_eq_true_eq]
            exact ⟨by omega, by
              simpa using buildContextBlock_ne_empty (c :: rest)⟩
        · intro hlt
          exact absurd hlt (not_lt.mpr hge)

/-- Retrieval result of the scenario query about B.Tech fees: one chunk with
similarity `0.61`. -/
def feesChunks : List Chunk :=
  [{ content := "The B.Tech program fee is 8 lakhs in total.",
     category := some "fees", file_name := some "btech.md",
     similarity := 61 / 100 }]

/-- Retrieval result of the off-topic weather query: one chunk with top
similarity `0.04`. -/
def weatherChunks : List Chunk :=
  [{ content := "The B.Tech program fee is 8 lakhs in total.",
     category := some "fees", file_name := some "btech.md",
     similarity := 4 / 100 }]

/-- C1 witness: the fees query (top similarity `0.61 ≥ 0.25`) injects
context; the weather query (top similarity `0.04 < 0.25`) yields a null
context with `chunksFound = 0`. -/
theorem relevance_gate_iff_threshold_witness :
    contextInjected feesChunks = true ∧
      ragContextResponse weatherChunks =
        { context := none, chunksFound := 0 } := by
  constructor
  · exact (relevance_gate_iff_threshold feesChunks (by decide)).1.mpr
      (by norm_num [feesChunks, topSimilarity, SIMILARITY_THRESHOLD])
  · exact (relevance_gate_iff_threshold weatherChunks (by decide)).2
      (by norm_num [weatherChunks, topSimilarity, SIMILARITY_THRESHOLD])

/-! ## Prewarm cache (`prewarmContext` / `fetchAndSendContext`)

`prewarmContext` stores the fetched `{context, chunksFound}` JSON under the
key `` `${sessionId || "anon"}::${category || "general"}::${trimmed.slice(0,
100)}` ``.  `fetchAndSendContext` computes the same key, and only when the
cached entry exists *and its `context` field is truthy* does it send the
cached context and skip the network request; otherwise it falls through to a
fresh `fetch` of the RAG-context endpoint. -/

/-- The composite prewarm cache key. -/
def prewarmKey (sessionId category : Option String) (question : String) :
    String :=
  orTruthy sessionId "anon" ++ "::" ++ orTruthy category "general" ++ "::"
    ++ jsSlice0 (jsTrim question) 100

/-- What the full context-fetch path does: nothing (guard failed), send the
cached context without a network request, or issue a network request to the
retrieval endpoint. -/
inductive FetchAction where
  | skip
  | sendCached (context : String)
  | networkFetch
  deriving DecidableEq, Repr

/-- The cache-consultation prefix of `fetchAndSendContext`: guard on the data
channel and a non-empty question, then
`const prewarmed = prewarmCacheRef.current.get(key);
if (prewarmed && prewarmed.context) { ...send...; return; }`, otherwise fall
through to the network fetch. -/
def prewarmHit : Option RagData → FetchAction
  | some d =>
    match d.context with
    | some c => if c = "" then .networkFetch else .sendCached c
    | none => .networkFetch
  | none => .networkFetch

def fetchAndSendContext (channelOpen : Bool)
    (cache : List (String × RagData)) (sessionId category : Option String)
    (question : String) : FetchAction :=
  if ¬ channelOpen then .skip
  else if jsTrim question = "" then .skip
  else prewarmHit (cache.lookup (prewarmKey sessionId category question))

/-- A populated prewarm entry whose cached response carries no context
(`{context: null, chunksFound: 0}`, as cached after a below-threshold or
no-chunk response). -/
def nullContextCache : List (String × RagData) :=
  [(prewarmKey (some "s1") none "what are the fees",
    { context := none, chunksFound := 0 })]

/-- C7 counterexample: the claim fails as stated — with a prewarm entry
already populated under the matching key but carrying a null context, the
subsequent full context-fetch call does *not* use the cache: it issues a new
network request to the retrieval endpoint. -/
theorem prewarm_cache_hit_counterexample :
    fetchAndSendContext true nullContextCache (some "s1") none
      "what are the fees" = .networkFetch := by decide

/-- C7 (amended): whenever the populated prewarm entry under the matching
key carries a truthy (non-null, non-empty) context, the full context-fetch
call sends the cached context and issues no network request; an entry cached
with a null context is not treated as a hit and the network request is
issued anyway. -/
theorem prewarm_cache_hit_skips_network (cache : List (String × RagData))
    (sessionId category : Option String) (question : String) (d : RagData)
    (c : String) (hq : jsTrim question ≠ "")
    (hl : cache.lookup (prewarmKey sessionId category question) = some d)
    (hc : d.context = some c) (hcne : c ≠ "") :
    fetchAndSendContext true cache sessionId category question =
      .sendCached c := by
  unfold fetchAndSendContext
  rw [if_neg (by simp), if_neg hq, hl]
  simp [prewarmHit, hc, hcne]

/-- C7 witness: a populated entry with the non-empty cached context
`"CTX"` under the matching key is served from the cache. -/
theorem prewarm_cache_hit_skips_network_witness :
    fetchAndSendContext true
      [(prewarmKey (some "s1") none "what are the fees",
        { context := some "CTX", chunksFound := 2 })]
      (some "s1") none "what are the fees" = .sendCached "CTX" := by
  exact prewarm_cache_hit_skips_network
    [(prewarmKey (some "s1") none "what are the fees",
      { context := some "CTX", chunksFound := 2 })]
    (some "s1") none "what are the fees"
    { context := some "CTX", chunksFound := 2 } "CTX"
    (by decide) (by decide) rfl (by decide)

/-! ## `disconnect()` state reset (`VoiceChat.jsx`)

`disconnect` clears the pending retry timer and counter, flushes and then
resets the conversation buffers (`currentUserMessageRef`,
`currentAssistantMessageRef`, `conversationMessagesRef`,
`setConversationMessages([])`), and resets the session id
(`setSessionId(null)`).  It never touches `prewarmCacheRef` (and never resets
`hasGreetedRef`). -/

structure Message where
  role : String
  content : String
  deriving DecidableEq, Repr

/-- The per-session client state tracked by refs and React state in
`VoiceChat.jsx` (the fields `disconnect` interacts with). -/
structure ClientState where
  prewarmCache : List (String × RagData)
  retryCount : Nat
  hasGreeted : Bool
  isConnected : Bool
  conversationMessages : List Message
  sessionId : Option String
  currentUserMessage : String
  currentAssistantMessage : String
  deriving DecidableEq, Repr

/-- The state transformation performed by `disconnect()`. -/
def disconnect (s : ClientState) : ClientState :=
  { s with
    retryCount := 0
    isConnected := false
    currentUserMessage := ""
    currentAssistantMessage := ""
    conversationMessages := []
    sessionId := none }

/-- A connected session that has one populated prewarm cache entry. -/
def sessionWithPrewarm : ClientState :=
  { prewarmCache := [("k", { context := some "ctx", chunksFound := 1 })]
    retryCount := 0
    hasGreeted := true
    isConnected := true
    conversationMessages := [{ role := "user", content := "hi" }]
    sessionId := some "s1"
    currentUserMessage := ""
    currentAssistantMessage := "" }

/-- C8 counterexample: after `disconnect()` completes on a session holding a
populated prewarm cache, the prewarm context cache still contains its entry —
it is not cleared, contradicting the claim that all per-session caches are
emptied. -/
theorem disconnect_clears_prewarm_counterexample :
    (disconnect sessionWithPrewarm).prewarmCache ≠ [] := by decide

/-- C8 (amended): `disconnect()` resets the per-session message buffers, the
conversation list, the retry counter and the session id, but leaves the
prewarm context cache untouched: its entries persist. -/
theorem disconnect_resets_but_keeps_prewarm (s : ClientState) :
    (disconnect s).conversationMessages = [] ∧
    (disconnect s).sessionId = none ∧
    (disconnect s).currentUserMessage = "" ∧
    (disconnect s).currentAssistantMessage = "" ∧
    (disconnect s).retryCount = 0 ∧
    (disconnect s).prewarmCache = s.prewarmCache :=
  ⟨rfl, rfl, rfl, rfl, rfl, rfl⟩

/-! ## Retrieval pipeline (`retrieve.js` / `qdrant-retrieve.js`)

`retrieveChunks` guards against empty queries, delegates to
`retrieveChunksFromQdrant`, and converts every thrown error into the empty
list.  `retrieveChunksFromQdrant` generates the query embedding (which may
throw), returns `[]` when the embedding is not a 1536-element numeric array,
and performs the Qdrant search — with a single unfiltered retry if a
category-filtered search fails for want of a payload index.  The outcomes of
the external calls (embedding model, Qdrant searches) are recorded in a
`RetrieveEnv`. -/

/-- JavaScript `x || null` on an optional string: the empty string collapses to null. -/
def truthyOrNone (o : Option String) : Option String :=
  match o with
  | some s => if s = "" then none else some s
  | none => none

/-- An error escaping `retrieveChunksFromQdrant` (a thrown exception). -/
inductive RetrieveError where
  | embedFailed
  | searchFailed
  deriving DecidableEq, Repr

/-- An error reported by a Qdrant search call; `indexRequired` records
whether its message matches the "index required"/missing category index
pattern tested by the fallback. -/
structure QdrantSearchError where
  indexRequired : Bool
  deriving DecidableEq, Repr

/-- One raw Qdrant search result (`result.payload` fields plus the score). -/
structure SearchHit where
  document_id : Option String
  chunk_id : Option String
  text : Option String
  contentField : Option String
  category : Option String
  file_name : Option String
  score : ℚ
  deriving DecidableEq, Repr

/-- The chunk assembled from a search hit at the end of
`retrieveChunksFromQdrant`:
`content: result.payload?.text || result.payload?.content || ''`,
`category`/`file_name` default to `null`, `similarity: result.score`. -/
def hitToChunk (r : SearchHit) : Chunk :=
  { content := orTruthy r.text (orTruthy r.contentField "")
    category := truthyOrNone r.category
    file_name := truthyOrNone r.file_name
    similarity := r.score }

/-- Outcomes of the external calls made by one retrieval:
the embedding model (`generateQueryEmbedding`, which either throws or
produces a JavaScript value — `none` models a non-array result), the
category-filtered Qdrant search and the unfiltered Qdrant search. -/
structure RetrieveEnv where
  embedResult : Except Unit (Option (List ℚ))
  searchFiltered : Except QdrantSearchError (List SearchHit)
  searchUnfiltered : Except QdrantSearchError (List SearchHit)

/-- The validation
`Array.isArray(embedding) && embedding.length === 1536 && no NaN entries`
(numeric entries are guaranteed by the `List ℚ` representation). -/
def validEmbedding : Option (List ℚ) → Bool
  | some l => l.length == 1536
  | none => false

/-- Function `retrieveChunksFromQdrant`: embed the query (propagating a thrown
error), return `[]` on a malformed embedding, search Qdrant — retrying once
without the category filter if the filtered search fails because no payload
index exists — and map the hits to chunks; any other search failure is
rethrown. -/
def retrieveChunksFromQdrant (category : Option String)
    (env : RetrieveEnv) : Except RetrieveError (List Chunk) :=
  match env.embedResult with
  | .error _ => .error .embedFailed
  | .ok emb =>
    if ¬ validEmbedding emb then .ok []
    else
      let searchResult : Except QdrantSearchError (List SearchHit) :=
        match truthyOrNone category with
        | some _ =>
          match env.searchFiltered with
          | .ok r => .ok r
          | .error e =>
            if e.indexRequired then env.searchUnfiltered else .error e
        | none => env.searchUnfiltered
      match searchResult with
      | .ok hits => .ok (hits.map hitToChunk)
      | .error _ => .error .searchFailed

/-- Function `retrieveChunks` from `retrieve.js`: empty/undefined/whitespace queries
short-circuit to `[]`; every error thrown by the Qdrant pipeline is caught
and converted to `[]`. -/
def retrieveChunks (query : Option String) (category : Option String)
    (env : RetrieveEnv) : List Chunk :=
  match query with
  | none => []
  | some q =>
    if jsTrim q = "" then []
    else
      match retrieveChunksFromQdrant category env with
      | .ok chunks => chunks
      | .error _ => []

/-- The external calls a retrieval performs, in order, following the same
control flow as `retrieveChunks`. -/
inductive ExtCall where
  | embed
  | qdrantFiltered
  | qdrantUnfiltered
  deriving DecidableEq, Repr

/-- Instrumentation of the retrieval control flow: which external calls
(embedding model, Qdrant searches) are issued for a given query and
environment. -/
def retrieveCalls (query : Option String) (category : Option String)
    (env : RetrieveEnv) : List ExtCall :=
  match query with
  | none => []
  | some q =>
    if jsTrim q = "" then []
    else
      .embed ::
        (match env.embedResult with
        | .error _ => []
        | .ok emb =>
          if ¬ validEmbedding emb then []
          else
            match truthyOrNone category with
            | some _ =>
              .qdrantFiltered ::
                (match env.searchFiltered with
                | .ok _ => []
                | .error e =>
                  if e.indexRequired then [.qdrantUnfiltered] else [])
            | none => [.qdrantUnfiltered])

/-- C9: `retrieveChunks` never lets an exception escape — it returns a plain
list for every environment — and retrieval failure degrades to "no context":
if the Qdrant pipeline throws (embedding failure or vector-store failure) the
result is `[]`, and a malformed embedding (not a 1536-element numeric array)
also yields `[]`. -/
theorem retrieval_errors_degrade_to_empty (query : Option String)
    (category : Option String) (env : RetrieveEnv) :
    (∀ e : RetrieveError, retrieveChunksFromQdrant category env = .error e →
      retrieveChunks query category env = []) ∧
    (∀ emb : Option (List ℚ), env.embedResult = .ok emb →
      validEmbedding emb = false →
      retrieveChunks query category env = []) := by
  have hofinner : ∀ q, retrieveChunks (some q) category env =
      (if jsTrim q = "" then []
       else
         match retrieveChunksFromQdrant category env with
         | .ok chunks => chunks
         | .error _ => []) := fun _ => rfl
  constructor
  · intro e he
    match query with
    | none => rfl
    | some q =>
        rw [hofinner q]
        by_cases hq : jsTrim q = ""
        · rw [if_pos hq]
        · rw [if_neg hq, he]
  · intro emb hemb hvalid
    have hinner : retrieveChunksFromQdrant category env = .ok [] := by
      unfold retrieveChunksFromQdrant
      rw [hemb]
      simp [hvalid]
    match query with
    | none => rfl
    | some q =>
        rw [hofinner q]
        by_cases hq : jsTrim q = ""
        · rw [if_pos hq]
        · rw [if_neg hq, hinner]

/-- Environment in which both Qdrant search calls fail (vector store
unreachable). -/
def envSearchDown : RetrieveEnv :=
  { embedResult := .ok (some (List.replicate 1536 0))
    searchFiltered := .error { indexRequired := false }
    searchUnfiltered := .error { indexRequired := false } }

/-- Environment in which the embedding model returns a 384-wide vector that
was never padded (malformed dimensionality). -/
def envBadDim : RetrieveEnv :=
  { embedResult := .ok (some (List.replicate 384 0))
    searchFiltered := .ok []
    searchUnfiltered := .ok [] }

set_option maxRecDepth 8000 in
/-- C9 witness: with the vector store unreachable, and with a malformed
384-dimensional embedding, `retrieveChunks` returns the empty list. -/
theorem retrieval_errors_degrade_to_empty_witness :
    retrieveChunks (some "what are the fees") none envSearchDown = [] ∧
      retrieveChunks (some "what are the fees") none envBadDim = [] := by
  constructor
  · exact (retrieval_errors_degrade_to_empty (some "what are the fees")
      none envSearchDown).1 .searchFailed
      (by simp [retrieveChunksFromQdrant, envSearchDown, validEmbedding,
        truthyOrNone])
  · exact (retrieval_errors_degrade_to_empty (some "what are the fees")
      none envBadDim).2 (some (List.replicate 384 0)) rfl
      (by simp [validEmbedding])

/-- C10: a query that is undefined, empty, or only whitespace makes
`retrieveChunks` return `[]` immediately, and the retrieval issues no
external call at all — neither to the embedding model nor to the vector
store. -/
theorem empty_query_short_circuits (query : Option String)
    (category : Option String) (env : RetrieveEnv)
    (h : query = none ∨ ∃ q, query = some q ∧ jsTrim q = "") :
    retrieveChunks query category env = [] ∧
      retrieveCalls query category env = [] := by
  rcases h with h | ⟨q, hq, htrim⟩
  · subst h
    exact ⟨rfl, rfl⟩
  · subst hq
    constructor
    · show (if jsTrim q = "" then [] else _) = []
      rw [if_pos htrim]
    · show (if jsTrim q = "" then [] else _) = []
      rw [if_pos htrim]

/-- C10 witness: the whitespace-only query `"   "` returns `[]` and issues
no external call, even in an environment where every external call would
succeed. -/
theorem empty_query_short_circuits_witness :
    retrieveChunks (some "   ") none envBadDim = [] ∧
      retrieveCalls (some "   ") none envBadDim = [] :=
  empty_query_short_circuits (some "   ") none envBadDim
    (Or.inr ⟨"   ", rfl, by decide⟩)

/-! ## Embedding padding (`padEmbeddingTo1536` in `localEmbedding.js`)

The local embedding model produces a 384-dimensional vector; the Qdrant
collection is configured for 1536 dimensions.  `padEmbeddingTo1536` copies
the native values into a 1536-wide zero vector and, when the original vector
has positive magnitude, rescales the originally-populated entries by
`1 / magnitude` (the inverse of the L2 norm of the *original* vector).
Vector arithmetic is modelled over `ℝ`. -/

/-- Function `padEmbeddingTo1536`: return the input unchanged at width 1536, truncate
above 1536, and otherwise zero-pad; when the original magnitude is positive,
the populated entries are multiplied by the precomputed `invMagnitude`. -/
noncomputable def padEmbeddingTo1536 (embedding : List ℝ) : List ℝ :=
  if embedding.length = 1536 then embedding
  else if 1536 < embedding.length then embedding.take 1536
  else
    let sumSq := (embedding.map fun v => v * v).sum
    let magnitude := Real.sqrt sumSq
    if 0 < magnitude then
      (embedding.map fun v => v * (1 / magnitude)) ++
        List.replicate (1536 - embedding.length) 0
    else
      embedding ++ List.replicate (1536 - embedding.length) 0

/-- The L2 norm of a vector, as computed by the magnitude loop of
`padEmbeddingTo1536`. -/
noncomputable def l2norm (v : List ℝ) : ℝ :=
  Real.sqrt ((v.map fun x => x * x).sum)

theorem sumSq_nonneg (v : List ℝ) : 0 ≤ (v.map fun x => x * x).sum := by
  apply List.sum_nonneg
  intro x hx
  rcases List.mem_map.mp hx with ⟨y, _, rfl⟩
  exact mul_self_nonneg y

theorem sumSq_pos_of_ne_zero (v : List ℝ) (h : ∃ x ∈ v, x ≠ 0) :
    0 < (v.map fun x => x * x).sum := by
  rcases h with ⟨x, hx, hxne⟩
  induction v with
  | nil => exact absurd hx (List.not_mem_nil x)
  | cons a l ih =>
      rw [List.map_cons, List.sum_cons]
      rcases List.mem_cons.mp hx with rfl | hmem
      · exact add_pos_of_pos_of_nonneg
          ((mul_self_pos).mpr hxne) (sumSq_nonneg l)
      · exact add_pos_of_nonneg_of_pos (mul_self_nonneg a) (ih hmem)

theorem sumSq_scale (v : List ℝ) (c : ℝ) :
    (v.map fun x => (x * c) * (x * c)).sum =
      ((v.map fun x => x * x).sum) * (c * c) := by
  induction v with
  | nil => simp
  | cons a l ih =>
      rw [List.map_cons, List.sum_cons, List.map_cons, List.sum_cons, ih]
      ring

theorem padEmbeddingTo1536_of_lt (v : List ℝ) (h1 : v.length < 1536) :
    padEmbeddingTo1536 v =
      (if 0 < Real.sqrt ((v.map fun x => x * x).sum) then
        (v.map fun x => x * (1 / Real.sqrt ((v.map fun y => y * y).sum))) ++
          List.replicate (1536 - v.length) 0
      else v ++ List.replicate (1536 - v.length) 0) := by
  unfold padEmbeddingTo1536
  rw [if_neg (by omega), if_neg (by omega)]

/-- C2: for every embedding vector `v` of native width `0 < n < 1536`, the
padded vector has width 1536, its first `n` components are `v` multiplied
componentwise by one positive scalar, and every component at indices `n`
through `1535` is zero. -/
theorem padEmbedding_parallel_zero_tail (v : List ℝ) (h0 : 0 < v.length)
    (h1 : v.length < 1536) :
    (padEmbeddingTo1536 v).length = 1536 ∧
    ∃ c : ℝ, 0 < c ∧
      (∀ i : Nat, i < v.length →
        (padEmbeddingTo1536 v).getD i 0 = c * v.getD i 0) ∧
      (∀ i : Nat, v.length ≤ i → i < 1536 →
        (padEmbeddingTo1536 v).getD i 0 = 0) := by
  rw [padEmbeddingTo1536_of_lt v h1]
  by_cases hm : 0 < Real.sqrt ((v.map fun x => x * x).sum)
  · rw [if_pos hm]
    set m := Real.sqrt ((v.map fun y => y * y).sum) with hmdef
    constructor
    · rw [List.length_append, List.length_map, List.length_replicate]
      omega
    · refine ⟨1 / m, one_div_pos.mpr hm, ?_, ?_⟩
      · intro i hi
        rw [List.getD_append _ _ _ _ (by rw [List.length_map]; exact hi)]
        have h := List.getD_map v (0 : ℝ) (n := i) (fun x => x * (1 / m))
        rw [zero_mul] at h
        rw [h]
        ring
      · intro i hlow hhigh
        rw [List.getD_append_right _ _ _ _
            (by rw [List.length_map]; exact hlow)]
        rw [List.getD_eq_getElem?_getD, List.getElem?_replicate]
        rw [List.length_map]
        split <;> rfl
  · rw [if_neg hm]
    constructor
    · rw [List.length_append, List.length_replicate]
      omega
    · refine ⟨1, one_pos, ?_, ?_⟩
      · intro i hi
        rw [List.getD_append _ _ _ _ hi, one_mul]
      · intro i hlow hhigh
        rw [List.getD_append_right _ _ _ _ hlow]
        rw [List.getD_eq_getElem?_getD, List.getElem?_replicate]
        split <;> rfl

/-- C2 witness: padding the width-2 vector `[3, 4]` multiplies both
components by one positive scalar and zeroes every later index. -/
theorem padEmbedding_parallel_zero_tail_witness :
    (padEmbeddingTo1536 [(3 : ℝ), 4]).length = 1536 ∧
    ∃ c : ℝ, 0 < c ∧
      (∀ i : Nat, i < 2 →
        (padEmbeddingTo1536 [(3 : ℝ), 4]).getD i 0 =
          c * ([(3 : ℝ), 4].getD i 0)) ∧
      (∀ i : Nat, 2 ≤ i → i < 1536 →
        (padEmbeddingTo1536 [(3 : ℝ), 4]).getD i 0 = 0) :=
  padEmbedding_parallel_zero_tail [(3 : ℝ), 4] (by norm_num) (by norm_num)

/-- The sum of squares of `[3, 4]` is `25`, so its magnitude is `5`. -/
theorem magnitude_34 :
    Real.sqrt ((([(3 : ℝ), 4]).map fun x => x * x).sum) = 5 := by
  have h : ((([(3 : ℝ), 4]).map fun x => x * x).sum) = 25 := by norm_num
  rw [h, show (25 : ℝ) = 5 ^ 2 by norm_num, Real.sqrt_sq (by norm_num)]

theorem padEmbeddingTo1536_34 :
    padEmbeddingTo1536 [(3 : ℝ), 4] =
      [3 * (1 / 5), 4 * (1 / 5)] ++ List.replicate 1534 (0 : ℝ) := by
  rw [padEmbeddingTo1536_of_lt [(3 : ℝ), 4] (by norm_num)]
  rw [magnitude_34]
  rw [if_pos (by norm_num)]
  norm_num

/-- C3 counterexample: the claim fails as stated — padding does *not*
preserve the L2 norm of the originally-populated entries.  For `v = [3, 4]`
(norm `5`) the first two components of the padded output are `[3/5, 4/5]`,
of norm `1 ≠ 5`: the code rescales the populated entries to unit norm
instead of preserving their original norm. -/
theorem pad_preserves_norm_counterexample :
    l2norm ((padEmbeddingTo1536 [(3 : ℝ), 4]).take 2) ≠
      l2norm [(3 : ℝ), 4] := by
  have hl : l2norm ((padEmbeddingTo1536 [(3 : ℝ), 4]).take 2) = 1 := by
    rw [padEmbeddingTo1536_34]
    have htake : ([3 * (1 / 5), 4 * (1 / 5)] ++
        List.replicate 1534 (0 : ℝ)).take 2 = [3 * (1 / 5), 4 * (1 / 5)] := rfl
    rw [htake]
    unfold l2norm
    have h : ((([3 * (1 / 5), 4 * (1 / 5)] : List ℝ)).map
        fun x => x * x).sum = 1 := by norm_num
    rw [h, Real.sqrt_one]
  have hr : l2norm [(3 : ℝ), 4] = 5 := magnitude_34
  rw [hl, hr]
  norm_num

/-- C3 (amended): for a nonzero embedding vector `v` of native width
`0 < n < 1536`, the rescaling in `padEmbeddingTo1536` normalizes the
originally-populated entries to *unit* L2 norm — the original norm of `v` is
preserved only in the case where `v` already had unit norm. -/
theorem padEmbedding_unit_norm (v : List ℝ) (h1 : v.length < 1536)
    (hnz : ∃ x ∈ v, x ≠ 0) :
    l2norm ((padEmbeddingTo1536 v).take v.length) = 1 := by
  have hpos : 0 < (v.map fun x => x * x).sum := sumSq_pos_of_ne_zero v hnz
  have hm : 0 < Real.sqrt ((v.map fun x => x * x).sum) :=
    Real.sqrt_pos.mpr hpos
  rw [padEmbeddingTo1536_of_lt v h1, if_pos hm]
  set m := Real.sqrt ((v.map fun y => y * y).sum) with hmdef
  have htake : ((v.map fun x => x * (1 / m)) ++
      List.replicate (1536 - v.length) 0).take v.length =
        v.map fun x => x * (1 / m) := by
    rw [show v.length = (v.map fun x => x * (1 / m)).length from
      (List.length_map v _).symm, List.take_left]
  rw [htake]
  unfold l2norm
  rw [List.map_map]
  have hcomp : ((fun x => x * x) ∘ fun x : ℝ => x * (1 / m)) =
      fun x : ℝ => (x * (1 / m)) * (x * (1 / m)) := rfl
  rw [hcomp, sumSq_scale v (1 / m)]
  have hmsq : m * m = (v.map fun x => x * x).sum := by
    rw [hmdef]
    exact Real.mul_self_sqrt (le_of_lt hpos)
  have hm0 : m ≠ 0 := ne_of_gt hm
  have hone : ((v.map fun x => x * x).sum) * (1 / m * (1 / m)) = 1 := by
    rw [← hmsq]
    field_simp
  rw [hone, Real.sqrt_one]

/-- C3 witness: padding the nonzero vector `[3, 4]` gives populated entries
of unit norm. -/
theorem padEmbedding_unit_norm_witness :
    l2norm ((padEmbeddingTo1536 [(3 : ℝ), 4]).take 2) = 1 :=
  padEmbedding_unit_norm [(3 : ℝ), 4] (by norm_num)
    ⟨3, by norm_num, by norm_num⟩

end VoiceBot
